import Mathlib

/-!
Verification of the rayz-shared laser-tag firmware core against its
natural-language specification.  Each subsystem touched by a claim is
shallowly embedded: pure C functions become Lean functions on `Nat`
(machine integers are reduced modulo `2 ^ w` exactly where the C types
truncate), static module state becomes explicit state records, and the
monotonic clock is passed as an explicit `now` argument.
-/

namespace RayZ

/-! ## Bit-manipulation helper lemmas -/

/-- Splitting lemma for the `(data <<< n) ||| hash` packing used by the codec:
when the low part fits in `n` bits the bitwise or is plain addition. -/
theorem shiftLeft_lor_eq (n d h : Nat) (hh : h < 2 ^ n) :
    (d <<< n) ||| h = 2 ^ n * d + h := by
  apply Nat.eq_of_testBit_eq
  intro j
  rw [Nat.testBit_lor, Nat.testBit_mul_pow_two_add d hh j, Nat.testBit_shiftLeft]
  by_cases hj : j < n
  · have hlt : ¬(j ≥ n) := Nat.not_le.mpr hj
    simp [hj, hlt]
  · have hge : j ≥ n := Nat.le_of_not_lt hj
    have hbit : h.testBit j = false :=
      Nat.testBit_lt_two_pow
        (lt_of_lt_of_le hh (Nat.pow_le_pow_right (by norm_num) hge))
    simp [hj, hge, hbit]

/-- High-part extraction from the packed message. -/
theorem shiftLeft_lor_shiftRight (n d h : Nat) (hh : h < 2 ^ n) :
    ((d <<< n) ||| h) >>> n = d := by
  rw [shiftLeft_lor_eq n d h hh, Nat.shiftRight_eq_div_pow,
    Nat.mul_add_div (Nat.two_pow_pos n), Nat.div_eq_of_lt hh, Nat.add_zero]

/-- Low-part extraction from the packed message. -/
theorem shiftLeft_lor_and (n d h : Nat) (hh : h < 2 ^ n) :
    ((d <<< n) ||| h) &&& (2 ^ n - 1) = h := by
  rw [shiftLeft_lor_eq n d h hh, Nat.and_pow_two_sub_one_eq_mod,
    Nat.mul_add_mod, Nat.mod_eq_of_lt hh]

/-- Masking with `0xFF` is reduction modulo 256. -/
theorem and_255_eq_mod (x : Nat) : x &&& 255 = x % 256 := by
  have h := Nat.and_pow_two_sub_one_eq_mod x 8
  norm_num at h
  exact h

/-- Masking with `0x0F` is reduction modulo 16. -/
theorem and_15_eq_mod (x : Nat) : x &&& 15 = x % 16 := by
  have h := Nat.and_pow_two_sub_one_eq_mod x 4
  norm_num at h
  exact h

/-- Masking with `0x0FFF` is reduction modulo 4096. -/
theorem and_4095_eq_mod (x : Nat) : x &&& 4095 = x % 4096 := by
  have h := Nat.and_pow_two_sub_one_eq_mod x 12
  norm_num at h
  exact h

/-! ## Laser message codec, 4-bit-hash variant

From `src/include/hash.h` (first header): 12 bits of data plus a 4-bit
hash.  In the C expression `nibble0 ^ nibble1 ^ nibble2 ^ 0x09 + 1`
the addition binds tighter than `^`, so the constant folded in is `0x0A`.
-/

namespace Hash4

/-- Embedding of `calculateHash4bit` from `src/include/hash.h`. -/
def calculateHash4bit (data : Nat) : Nat :=
  let d := data &&& 0x0FFF
  let nibble0 := d &&& 0x0F
  let nibble1 := (d >>> 4) &&& 0x0F
  let nibble2 := (d >>> 8) &&& 0x0F
  (nibble0 ^^^ nibble1 ^^^ nibble2 ^^^ (0x09 + 1)) &&& 0x0F

/-- Embedding of `createMessage16bit` (4-bit-hash variant). -/
def createMessage16bit (data : Nat) : Nat :=
  let d := data &&& 0x0FFF
  let hash := calculateHash4bit d
  (d <<< 4) ||| (hash &&& 0x0F)

/-- Embedding of `validateMessage16bit` (4-bit-hash variant); `some data`
models `true` with `*outData` written, `none` models `false`. -/
def validateMessage16bit (message : Nat) : Option Nat :=
  let data := (message >>> 4) &&& 0x0FFF
  let receivedHash := message &&& 0x0F
  let expectedHash := calculateHash4bit data
  if receivedHash = expectedHash then some data else none

/-- The hash always fits in 4 bits. -/
theorem calculateHash4bit_lt (data : Nat) : calculateHash4bit data < 16 := by
  unfold calculateHash4bit
  simp only [and_15_eq_mod]
  exact Nat.mod_lt _ (by norm_num)

/-- Round trip for the 4-bit-hash codec. -/
theorem validate_create_4bit (data : Nat) (hd : data < 4096) :
    validateMessage16bit (createMessage16bit data) = some data := by
  unfold validateMessage16bit createMessage16bit
  have hmask : data &&& 0x0FFF = data := by
    rw [and_4095_eq_mod, Nat.mod_eq_of_lt hd]
  simp only [hmask]
  have hh : calculateHash4bit data &&& 0x0F = calculateHash4bit data := by
    rw [and_15_eq_mod, Nat.mod_eq_of_lt (calculateHash4bit_lt data)]
  have hhlt : calculateHash4bit data < 2 ^ 4 := calculateHash4bit_lt data
  rw [hh]
  rw [show ((data <<< 4) ||| calculateHash4bit data) >>> 4 = data from
    shiftLeft_lor_shiftRight 4 data _ hhlt]
  rw [show ((data <<< 4) ||| calculateHash4bit data) &&& 0x0F =
      calculateHash4bit data from shiftLeft_lor_and 4 data _ hhlt]
  rw [hmask]
  simp

end Hash4

/-! ## Laser message codec, 8-bit-hash variant

From `src/include/hash.h` (second header): 8 bits of data plus an 8-bit
hash, `hash(x) = ((x XOR HASH_XOR_SEED) + HASH_OFFSET) AND 0xFF`.
The constants live in `protocol_config.h`, which is not part of the
source snapshot, so the functions are first embedded generically over
`seed` and `offset` (every theorem proved for all constants covers the
real fleet values), and concrete modelled constants are fixed below.
-/

namespace Hash8

/-- Embedding of `calculateHash8bit`, generic in the fleet constants. -/
def calculateHash8bitWith (seed offset data : Nat) : Nat :=
  (((data &&& 0xFF) ^^^ seed) + offset) &&& 0xFF

/-- Embedding of `createMessage16bit` (8-bit-hash variant), generic in the
fleet constants; `MESSAGE_HASH_BITS = 8` per the documented frame layout
`[8-bit data][8-bit hash]`. -/
def createMessage16bitWith (seed offset data : Nat) : Nat :=
  let d := data &&& 0xFF
  let hash := calculateHash8bitWith seed offset d
  (d <<< 8) ||| (hash &&& 0xFF)

/-- Embedding of `validateMessage16bit` (8-bit-hash variant), generic in
the fleet constants. -/
def validateMessage16bitWith (seed offset message : Nat) : Option Nat :=
  let data := (message >>> 8) &&& 0xFF
  let receivedHash := message &&& 0xFF
  let expectedHash := calculateHash8bitWith seed offset data
  if receivedHash = expectedHash then some data else none

/-- Modelled from the spec: `protocol_config.h` (defining `HASH_XOR_SEED`)
is absent from the source snapshot; the spec only states that the
constants are fleet-wide and chosen so that the line-idle patterns
`0x0000`/`0xFFFF` never validate.  `0xA5` satisfies that guarantee
together with `HASH_OFFSET = 0x5A`. -/
def HASH_XOR_SEED : Nat := 0xA5

/-- Modelled from the spec: companion constant to `HASH_XOR_SEED`, see
there. -/
def HASH_OFFSET : Nat := 0x5A

/-- The codec at the modelled fleet constants. -/
def createMessage16bit (data : Nat) : Nat :=
  createMessage16bitWith HASH_XOR_SEED HASH_OFFSET data

/-- The validator at the modelled fleet constants. -/
def validateMessage16bit (message : Nat) : Option Nat :=
  validateMessage16bitWith HASH_XOR_SEED HASH_OFFSET message

/-- The hash always fits in 8 bits. -/
theorem calculateHash8bitWith_lt (seed offset data : Nat) :
    calculateHash8bitWith seed offset data < 256 := by
  unfold calculateHash8bitWith
  rw [and_255_eq_mod]
  exact Nat.mod_lt _ (by norm_num)

/-- Round trip for the 8-bit-hash codec, for arbitrary fleet constants. -/
theorem validate_create_8bit (seed offset data : Nat) (hd : data < 256) :
    validateMessage16bitWith seed offset
      (createMessage16bitWith seed offset data) = some data := by
  unfold validateMessage16bitWith createMessage16bitWith
  have hmask : data &&& 0xFF = data := by
    rw [and_255_eq_mod, Nat.mod_eq_of_lt hd]
  simp only [hmask]
  have hh : calculateHash8bitWith seed offset data &&& 0xFF =
      calculateHash8bitWith seed offset data := by
    rw [and_255_eq_mod,
      Nat.mod_eq_of_lt (calculateHash8bitWith_lt seed offset data)]
  have hhlt : calculateHash8bitWith seed offset data < 2 ^ 8 :=
    calculateHash8bitWith_lt seed offset data
  rw [hh]
  rw [show ((data <<< 8) ||| calculateHash8bitWith seed offset data) >>> 8
      = data from shiftLeft_lor_shiftRight 8 data _ hhlt]
  rw [show ((data <<< 8) ||| calculateHash8bitWith seed offset data) &&& 0xFF
      = calculateHash8bitWith seed offset data from
      shiftLeft_lor_and 8 data _ hhlt]
  rw [hmask]
  simp

/-- Validation succeeds only when the embedded hash matches exactly, for
arbitrary fleet constants. -/
theorem validate_hash_exact (seed offset message d : Nat)
    (h : validateMessage16bitWith seed offset message = some d) :
    d = (message >>> 8) &&& 0xFF ∧
      message &&& 0xFF = calculateHash8bitWith seed offset d := by
  simp only [validateMessage16bitWith] at h
  split at h
  · rename_i hc
    obtain rfl : (message >>> 8) &&& 0xFF = d := Option.some_inj.mp h
    exact ⟨rfl, hc⟩
  · exact absurd h (by simp)

end Hash8

/-- Claim C6: the laser message codec round-trips — for every identity value
in 0..255 decoding the encoded message succeeds and returns the same value,
decoding succeeds only when the embedded hash matches exactly, and the
line-idle patterns 0x0000 and 0xFFFF are never accepted as valid messages.
Round trip and hash-exactness are proved for arbitrary fleet constants
(which covers the real values of the absent `protocol_config.h`); the
idle patterns are rejected at the modelled constants and, unconditionally,
by the in-repo 4-bit-hash variant. -/
theorem C6_laser_codec :
    (∀ seed offset data : Nat, data < 256 →
        Hash8.validateMessage16bitWith seed offset
          (Hash8.createMessage16bitWith seed offset data) = some data)
    ∧ (∀ seed offset message d : Nat,
        Hash8.validateMessage16bitWith seed offset message = some d →
          message &&& 0xFF = Hash8.calculateHash8bitWith seed offset d)
    ∧ Hash8.validateMessage16bit 0x0000 = none
    ∧ Hash8.validateMessage16bit 0xFFFF = none
    ∧ (∀ data : Nat, data < 4096 →
        Hash4.validateMessage16bit (Hash4.createMessage16bit data) = some data)
    ∧ Hash4.validateMessage16bit 0x0000 = none
    ∧ Hash4.validateMessage16bit 0xFFFF = none := by
  refine ⟨fun s o d hd => Hash8.validate_create_8bit s o d hd,
    fun s o m d h => (Hash8.validate_hash_exact s o m d h).2,
    by decide, by decide,
    fun d hd => Hash4.validate_create_4bit d hd,
    by decide, by decide⟩

/-- Witness for C6: the round-trip components applied at concrete inputs. -/
theorem C6_laser_codec_witness :
    (42 < 256 ∧
      Hash8.validateMessage16bitWith 7 9
        (Hash8.createMessage16bitWith 7 9 42) = some 42)
    ∧ (Hash8.validateMessage16bitWith 7 9 0x313F = some 0x31 ∧
        0x313F &&& 0xFF = Hash8.calculateHash8bitWith 7 9 0x31)
    ∧ (100 < 4096 ∧
        Hash4.validateMessage16bit (Hash4.createMessage16bit 100) = some 100) :=
  ⟨⟨by decide, C6_laser_codec.1 7 9 42 (by decide)⟩,
    ⟨by decide, C6_laser_codec.2.1 7 9 0x313F 0x31 (by decide)⟩,
    ⟨by decide, C6_laser_codec.2.2.2.2.1 100 (by decide)⟩⟩

/-! ## Game-state engine

Embedding of the `game_state` translation unit (the v2 variant whose
header appears in `src/unnamed/part_011`): `GameConfig`, `GameStateData`
and `DeviceConfig` records, the clamped config application, the factory
defaults and the runtime mutators.  C integer fields are `Nat`s reduced
modulo the C type width at every write that truncates; the monotonic
millisecond clock is an explicit `now` parameter.
-/

/-- Modulus of a C `uint32_t`. -/
def U32 : Nat := 4294967296

/-- Embedding of the `GameConfig` struct (`src/unnamed/part_011`). -/
structure GameConfig where
  max_hearts : Nat
  respawn_cooldown_ms : Nat
  invulnerability_ms : Nat
  kill_score : Nat
  hit_score : Nat
  assist_score : Nat
  score_to_win : Nat
  time_limit_s : Nat
  overtime_enabled : Bool
  sudden_death : Bool
  max_ammo : Nat
  mag_capacity : Nat
  reload_time_ms : Nat
  shot_rate_limit_ms : Nat
  team_play : Bool
  friendly_fire_enabled : Bool
  unlimited_ammo : Bool
  unlimited_respawn : Bool
  random_teams_on_start : Bool
  hit_sound_enabled : Bool
deriving Repr, DecidableEq

/-- Embedding of the `GameStateData` struct (`src/unnamed/part_011`). -/
structure GameStateData where
  shots_fired : Nat
  hits_landed : Nat
  kills : Nat
  deaths : Nat
  friendly_fire_count : Nat
  rx_count : Nat
  tx_count : Nat
  last_rx_ms : Nat
  hearts_remaining : Nat
  respawning : Bool
  respawn_end_time_ms : Nat
  game_start_time_ms : Nat
  last_heartbeat_ms : Nat
  server_connected : Bool
deriving Repr, DecidableEq

/-- Embedding of the `DeviceConfig` struct (`src/unnamed/part_011`,
extended with the `device_name` field used by `game_state_load_ids`);
the role is kept as its enum ordinal. -/
structure DeviceConfig where
  device_id : Nat
  player_id : Nat
  team_id : Nat
  color_rgb : Nat
  role : Nat
  device_name : String
deriving Repr, DecidableEq

/-- Embedding of the static `clamp_u32` helper — coerces without touching
the `clamped` flag. -/
def clamp_u32 (v lo hi : Nat) : Nat :=
  if v < lo then lo else if hi < v then hi else v

/-- Embedding of the `clamp8`/`clamp16` lambdas inside
`game_state_apply_game_config` — coerces and reports whether it did. -/
def clampFlagged (v lo hi : Nat) : Nat × Bool :=
  if v < lo then (lo, true) else if hi < v then (hi, true) else (v, false)

/-- Embedding of `game_state_apply_game_config`: the whole config is
replaced by the per-field clamped input; the returned `Bool` is the
`local_clamped` flag (set by `clamp8`/`clamp16` but not by `clamp_u32`). -/
def game_state_apply_game_config (cfg : GameConfig) : GameConfig × Bool :=
  let mh := clampFlagged cfg.max_hearts 1 99
  let tl := clampFlagged cfg.time_limit_s 0 7200
  let sw := clampFlagged cfg.score_to_win 0 65535
  let rc := clamp_u32 cfg.respawn_cooldown_ms 0 30000
  let iv := clampFlagged cfg.invulnerability_ms 0 30000
  let mg := clampFlagged cfg.mag_capacity 0 255
  let ma := clampFlagged cfg.max_ammo 0 65535
  let rt := clampFlagged cfg.reload_time_ms 0 30000
  let sr := clampFlagged cfg.shot_rate_limit_ms 50 2000
  ({ cfg with
      max_hearts := mh.1
      time_limit_s := tl.1
      score_to_win := sw.1
      respawn_cooldown_ms := rc
      invulnerability_ms := iv.1
      mag_capacity := mg.1
      max_ammo := ma.1
      reload_time_ms := rt.1
      shot_rate_limit_ms := sr.1 },
    mh.2 || tl.2 || sw.2 || iv.2 || mg.2 || ma.2 || rt.2 || sr.2)

/-- The literal defaults written by `game_state_load_default_game_config`
before it hands them to `game_state_apply_game_config`. -/
def default_game_config_raw : GameConfig where
  max_hearts := 5
  respawn_cooldown_ms := 5000
  invulnerability_ms := 500
  kill_score := 1
  hit_score := 1
  assist_score := 0
  score_to_win := 0
  time_limit_s := 0
  overtime_enabled := false
  sudden_death := false
  max_ammo := 0
  mag_capacity := 0
  reload_time_ms := 0
  shot_rate_limit_ms := 100
  team_play := false
  friendly_fire_enabled := false
  unlimited_ammo := true
  unlimited_respawn := true
  random_teams_on_start := false
  hit_sound_enabled := true

/-- Embedding of `game_state_load_default_game_config`: the stored config
after applying the factory defaults (the local `cl` flag is discarded). -/
def game_state_load_default_game_config : GameConfig :=
  (game_state_apply_game_config default_game_config_raw).1

/-- The zero-initialised runtime state (`memset(&s_state, 0, ...)`). -/
def GameStateData.zero : GameStateData where
  shots_fired := 0
  hits_landed := 0
  kills := 0
  deaths := 0
  friendly_fire_count := 0
  rx_count := 0
  tx_count := 0
  last_rx_ms := 0
  hearts_remaining := 0
  respawning := false
  respawn_end_time_ms := 0
  game_start_time_ms := 0
  last_heartbeat_ms := 0
  server_connected := false

/-- Embedding of `game_state_reset_runtime`: zero the state, then restore
`hearts_remaining` from the stored config. -/
def game_state_reset_runtime (cfg : GameConfig) : GameStateData :=
  { GameStateData.zero with hearts_remaining := cfg.max_hearts }

/-- Embedding of `game_state_record_shot`. -/
def game_state_record_shot (st : GameStateData) : GameStateData :=
  { st with shots_fired := (st.shots_fired + 1) % U32 }

/-- Embedding of `game_state_record_kill`. -/
def game_state_record_kill (st : GameStateData) : GameStateData :=
  { st with kills := (st.kills + 1) % U32 }

/-- Embedding of `game_state_record_death`: increment `deaths`, decrement
`hearts_remaining` unless already zero, and unconditionally start the
respawn window. -/
def game_state_record_death (now : Nat) (cfg : GameConfig)
    (st : GameStateData) : GameStateData :=
  { st with
      deaths := (st.deaths + 1) % U32
      hearts_remaining :=
        if 0 < st.hearts_remaining then st.hearts_remaining - 1
        else st.hearts_remaining
      respawning := true
      respawn_end_time_ms := (now + cfg.respawn_cooldown_ms) % U32 }

/-- Embedding of `game_state_reset_stats`. -/
def game_state_reset_stats (cfg : GameConfig) (st : GameStateData) :
    GameStateData :=
  { st with
      kills := 0
      deaths := 0
      shots_fired := 0
      hits_landed := 0
      friendly_fire_count := 0
      hearts_remaining := cfg.max_hearts
      rx_count := 0
      tx_count := 0
      last_rx_ms := 0 }

/-- Embedding of `game_state_check_respawn`; the `Bool` is the C return
value (respawn just completed). -/
def game_state_check_respawn (now : Nat) (cfg : GameConfig)
    (st : GameStateData) : GameStateData × Bool :=
  if !st.respawning then (st, false)
  else if st.respawn_end_time_ms ≤ now then
    ({ st with respawning := false, hearts_remaining := cfg.max_hearts }, true)
  else (st, false)

/-- Embedding of `game_state_start_respawn`. -/
def game_state_start_respawn (now : Nat) (cfg : GameConfig)
    (st : GameStateData) : GameStateData :=
  { st with
      respawning := true
      respawn_end_time_ms := (now + cfg.respawn_cooldown_ms) % U32 }

/-! ## Admin WebSocket protocol v2.2 dispatcher

Embedding of `process_message`, `handle_config_update` and
`handle_game_command` from the `ws_server` translation unit in
`src/unnamed/part_003` (first version, lines 1–685), together with the
frames the reply builders construct.  Opcode and game-command values come
from the repository's own protocol document (`src/unnamed/part_000`,
OpCode registry and command enum).  A parsed cJSON object becomes a
record of optional fields; `item->valueint` is a C `int`, so numeric
fields are `Option Int` and are truncated to the destination width at
each write, exactly as the C assignments do.
-/

/-- C conversion of an `int` to `uint8_t`. -/
def toU8 (v : Int) : Nat := (v.emod 256).toNat

/-- C conversion of an `int` to `uint16_t`. -/
def toU16 (v : Int) : Nat := (v.emod 65536).toNat

/-- C conversion of an `int` to `uint32_t`. -/
def toU32 (v : Int) : Nat := (v.emod 4294967296).toNat

/-- Inbound opcodes (client → device), from the OpCode registry in
`src/unnamed/part_000`. -/
def OP_GET_STATUS : Int := 1

/-- Heartbeat opcode. -/
def OP_HEARTBEAT : Int := 2

/-- Config-update opcode. -/
def OP_CONFIG_UPDATE : Int := 3

/-- Game-command opcode. -/
def OP_GAME_COMMAND : Int := 4

/-- Kill-confirmed opcode. -/
def OP_KILL_CONFIRMED : Int := 6

/-- Outbound status opcode. -/
def OP_STATUS : Nat := 10

/-- Outbound heartbeat-ack opcode. -/
def OP_HEARTBEAT_ACK : Nat := 11

/-- Outbound shot-fired opcode. -/
def OP_SHOT_FIRED : Nat := 12

/-- Outbound hit-report opcode. -/
def OP_HIT_REPORT : Nat := 13

/-- Outbound respawn opcode. -/
def OP_RESPAWN : Nat := 14

/-- Outbound acknowledgment opcode (`ack`), from the same registry. -/
def OP_ACK : Nat := 20

/-- Game-command values (command enum in `src/unnamed/part_000`). -/
def CMD_STOP : Int := 0

/-- START command value. -/
def CMD_START : Int := 1

/-- RESET command value. -/
def CMD_RESET : Int := 2

/-- A parsed inbound WebSocket JSON object, with one optional slot per
key the dispatcher reads.  String-typed keys are `Option String`,
numeric keys are the C `valueint`, boolean keys model `cJSON_IsTrue`
(absent ⇒ false). -/
structure WsMsg where
  op : Option Int
  msg_type : Option String
  req_id : Option String
  command : Option Int
  reset_to_defaults : Option Bool
  device_name : Option String
  device_id : Option Int
  player_id : Option Int
  team_id : Option Int
  color_rgb : Option Int
  max_hearts : Option Int
  spawn_hearts : Option Int
  respawn_time_s : Option Int
  enable_hearts : Option Bool
  friendly_fire : Option Bool
  max_ammo : Option Int
  reload_time_ms : Option Int
  enable_ammo : Option Bool
  game_duration_s : Option Int
  espnow_peers : Option String
deriving Repr, DecidableEq

/-- The empty inbound message (every key absent). -/
def WsMsg.empty : WsMsg where
  op := none
  msg_type := none
  req_id := none
  command := none
  reset_to_defaults := none
  device_name := none
  device_id := none
  player_id := none
  team_id := none
  color_rgb := none
  max_hearts := none
  spawn_hearts := none
  respawn_time_s := none
  enable_hearts := none
  friendly_fire := none
  max_ammo := none
  reload_time_ms := none
  enable_ammo := none
  game_duration_s := none
  espnow_peers := none

/-- An outbound frame, one constructor per JSON builder in the source;
the constructor arguments are the state snapshots the builder reads. -/
inductive OutFrame where
  | status (dev : DeviceConfig) (game : GameConfig) (st : GameStateData)
  | heartbeat_ack
  | hit_report (shooter : Int)
  | shot_fired (seq : Nat)
  | respawn (hearts : Nat)
deriving Repr, DecidableEq

/-- The `op` number each builder writes into its frame.  No builder in the
source constructs an `ack` (op 20) frame. -/
def OutFrame.opcode : OutFrame → Nat
  | .status _ _ _ => OP_STATUS
  | .heartbeat_ack => OP_HEARTBEAT_ACK
  | .hit_report _ => OP_HIT_REPORT
  | .shot_fired _ => OP_SHOT_FIRED
  | .respawn _ => OP_RESPAWN

/-- An emission: a frame sent to one client or broadcast to all. -/
inductive Emit where
  | toClient (fd : Nat) (f : OutFrame)
  | broadcast (f : OutFrame)
deriving Repr, DecidableEq

/-- The frame carried by an emission. -/
def Emit.frame : Emit → OutFrame
  | .toClient _ f => f
  | .broadcast f => f

/-- The combined mutable state the dispatcher touches. -/
structure ServerState where
  dev : DeviceConfig
  game : GameConfig
  st : GameStateData
deriving Repr, DecidableEq

/-- The identity-field writes of `handle_config_update` (one `if (item)`
block per key, in source order). -/
def apply_device_fields (msg : WsMsg) (dev0 : DeviceConfig) : DeviceConfig :=
  let dev := match msg.device_name with
    | some n => { dev0 with device_name := n }
    | none => dev0
  let dev := match msg.device_id with
    | some v => { dev with device_id := toU8 v }
    | none => dev
  let dev := match msg.player_id with
    | some v => { dev with player_id := toU8 v }
    | none => dev
  let dev := match msg.team_id with
    | some v => { dev with team_id := toU8 v }
    | none => dev
  match msg.color_rgb with
    | some v => { dev with color_rgb := toU32 v }
    | none => dev

/-- The `max_hearts` write of `handle_config_update`. -/
def upd_max_hearts (msg : WsMsg) (g : GameConfig) : GameConfig :=
  match msg.max_hearts with
  | some v => { g with max_hearts := toU8 v }
  | none => g

/-- The `spawn_hearts` write of `handle_config_update` — the source also
stores it into `max_hearts` ("use as starting hearts"). -/
def upd_spawn_hearts (msg : WsMsg) (g : GameConfig) : GameConfig :=
  match msg.spawn_hearts with
  | some v => { g with max_hearts := toU8 v }
  | none => g

/-- The `respawn_time_s` write of `handle_config_update`
(`valueint * 1000` stored into a `uint32_t`). -/
def upd_respawn_time_s (msg : WsMsg) (g : GameConfig) : GameConfig :=
  match msg.respawn_time_s with
  | some v => { g with respawn_cooldown_ms := toU32 (v * 1000) }
  | none => g

/-- The `enable_hearts` write of `handle_config_update`. -/
def upd_enable_hearts (msg : WsMsg) (g : GameConfig) : GameConfig :=
  match msg.enable_hearts with
  | some b => { g with unlimited_respawn := !b }
  | none => g

/-- The `friendly_fire` write of `handle_config_update`. -/
def upd_friendly_fire (msg : WsMsg) (g : GameConfig) : GameConfig :=
  match msg.friendly_fire with
  | some b => { g with friendly_fire_enabled := b }
  | none => g

/-- The `max_ammo` write of `handle_config_update`. -/
def upd_max_ammo (msg : WsMsg) (g : GameConfig) : GameConfig :=
  match msg.max_ammo with
  | some v => { g with max_ammo := toU16 v }
  | none => g

/-- The `reload_time_ms` write of `handle_config_update`. -/
def upd_reload_time_ms (msg : WsMsg) (g : GameConfig) : GameConfig :=
  match msg.reload_time_ms with
  | some v => { g with reload_time_ms := toU16 v }
  | none => g

/-- The `enable_ammo` write of `handle_config_update`. -/
def upd_enable_ammo (msg : WsMsg) (g : GameConfig) : GameConfig :=
  match msg.enable_ammo with
  | some b => { g with unlimited_ammo := !b }
  | none => g

/-- The `game_duration_s` write of `handle_config_update`. -/
def upd_game_duration_s (msg : WsMsg) (g : GameConfig) : GameConfig :=
  match msg.game_duration_s with
  | some v => { g with time_limit_s := toU16 v }
  | none => g

/-- The game-rule writes of `handle_config_update`, in source order.
No write is clamped: the value goes in reduced only by C integer
truncation. -/
def apply_game_fields (msg : WsMsg) (g : GameConfig) : GameConfig :=
  upd_game_duration_s msg (upd_enable_ammo msg (upd_reload_time_ms msg
    (upd_max_ammo msg (upd_friendly_fire msg (upd_enable_hearts msg
      (upd_respawn_time_s msg (upd_spawn_hearts msg
        (upd_max_hearts msg g))))))))

/-- Embedding of `handle_config_update` (`src/unnamed/part_003`,
lines 131–220): optional defaults reset, then field-by-field writes
with C-width truncation and no clamping, then a broadcast `status`.
`game_state_save_ids` (NVS) and `espnow_comm_load_peers_from_csv` have no
effect on this state.  The live `GameStateData` is never touched. -/
def handle_config_update (s : ServerState) (msg : WsMsg) :
    ServerState × List Emit :=
  let game0 :=
    if msg.reset_to_defaults = some true then game_state_load_default_game_config
    else s.game
  let dev := apply_device_fields msg s.dev
  let game := apply_game_fields msg game0
  let s2 : ServerState := { dev := dev, game := game, st := s.st }
  (s2, [Emit.broadcast (OutFrame.status s2.dev s2.game s2.st)])

/-- Embedding of `handle_game_command` (`src/unnamed/part_003`,
lines 222–244): missing `command` returns before any broadcast;
otherwise RESET/START reset the runtime and a `status` is broadcast. -/
def handle_game_command (s : ServerState) (msg : WsMsg) :
    ServerState × List Emit :=
  match msg.command with
  | none => (s, [])
  | some cmd =>
    let st :=
      if cmd = CMD_RESET then
        game_state_reset_runtime s.game
      else if cmd = CMD_START then
        game_state_reset_runtime s.game
      else s.st
    let s2 : ServerState := { s with st := st }
    (s2, [Emit.broadcast (OutFrame.status s2.dev s2.game s2.st)])

/-- Embedding of `process_message` (`src/unnamed/part_003`,
lines 246–291): opcode resolution with the legacy `type` fallback,
then dispatch.  Unknown opcodes emit nothing. -/
def process_message (fd : Nat) (s : ServerState) (msg : WsMsg) :
    ServerState × List Emit :=
  let op : Int := match msg.op with
    | some o => o
    | none => 0
  let op : Int :=
    if op = 0 then
      match msg.msg_type with
      | some t =>
        if t = "get_status" then OP_GET_STATUS
        else if t = "heartbeat" then OP_HEARTBEAT
        else if t = "config_update" then OP_CONFIG_UPDATE
        else 0
      | none => 0
    else op
  if op = OP_GET_STATUS then
    (s, [Emit.toClient fd (OutFrame.status s.dev s.game s.st)])
  else if op = OP_HEARTBEAT then
    (s, [Emit.toClient fd OutFrame.heartbeat_ack])
  else if op = OP_CONFIG_UPDATE then
    handle_config_update s msg
  else if op = OP_GAME_COMMAND then
    handle_game_command s msg
  else if op = OP_KILL_CONFIRMED then
    let s2 : ServerState := { s with st := game_state_record_kill s.st }
    (s2, [Emit.broadcast (OutFrame.status s2.dev s2.game s2.st)])
  else
    (s, [])

/-- Embedding of `ws_server_broadcast_shot` (`src/unnamed/part_003`,
lines 652–665): the broadcast frame's `seq_id` is the raw `shots_fired`
counter — a `uint32_t`, not an 8-bit rolling sequence. -/
def ws_server_broadcast_shot (st : GameStateData) : Emit :=
  Emit.broadcast (OutFrame.shot_fired st.shots_fired)

/-- One allowed shot as the firmware performs it: `game_state_record_shot`
followed by `ws_server_broadcast_shot` reading the updated counter. -/
def shot_step (st : GameStateData) : GameStateData × Nat :=
  let st2 := game_state_record_shot st
  (st2, st2.shots_fired)

/-- A run of consecutive allowed shots, returning the final state and the
emitted `seq_id` values in order. -/
def run_shots : Nat → GameStateData → GameStateData × List Nat
  | 0, st => (st, [])
  | n + 1, st =>
    let step := shot_step st
    let rest := run_shots n step.1
    (rest.1, step.2 :: rest.2)

/-! ## Concrete fixtures used by the per-claim evaluations -/

/-- A concrete device identity as `game_state_init` would leave it. -/
def dev0 : DeviceConfig where
  device_id := 17
  player_id := 17
  team_id := 0
  color_rgb := 0
  role := 0
  device_name := "rayz"

/-- The stored config after boot (factory defaults applied). -/
def game0 : GameConfig := game_state_load_default_game_config

/-- The runtime state after boot (`game_state_reset_runtime` on the
defaults: five hearts, all counters zero). -/
def st0 : GameStateData := game_state_reset_runtime game0

/-! ## Clamp helper lemmas -/

/-- Lower bound of the flagged clamp. -/
theorem clampFlagged_fst_lower (v lo hi : Nat) (h : lo ≤ hi) :
    lo ≤ (clampFlagged v lo hi).1 := by
  unfold clampFlagged
  split_ifs <;> simp <;> omega

/-- Upper bound of the flagged clamp. -/
theorem clampFlagged_fst_upper (v lo hi : Nat) (h : lo ≤ hi) :
    (clampFlagged v lo hi).1 ≤ hi := by
  unfold clampFlagged
  split_ifs <;> simp <;> omega

/-- The flag is raised exactly when the value was out of bounds. -/
theorem clampFlagged_snd_iff (v lo hi : Nat) :
    (clampFlagged v lo hi).2 = true ↔ v < lo ∨ hi < v := by
  unfold clampFlagged
  split_ifs <;> simp <;> omega

/-- An in-bounds value passes through with a false flag. -/
theorem clampFlagged_of_le (v lo hi : Nat) (h1 : lo ≤ v) (h2 : v ≤ hi) :
    clampFlagged v lo hi = (v, false) := by
  unfold clampFlagged
  split_ifs <;> first | rfl | omega

/-- Re-clamping a clamped value changes nothing and raises no flag. -/
theorem clampFlagged_idem (v lo hi : Nat) (h : lo ≤ hi) :
    clampFlagged (clampFlagged v lo hi).1 lo hi =
      ((clampFlagged v lo hi).1, false) :=
  clampFlagged_of_le _ _ _ (clampFlagged_fst_lower v lo hi h)
    (clampFlagged_fst_upper v lo hi h)

/-- Upper bound of the unflagged clamp. -/
theorem clamp_u32_le (v lo hi : Nat) (h : lo ≤ hi) :
    clamp_u32 v lo hi ≤ hi := by
  unfold clamp_u32
  split_ifs <;> omega

/-- Re-clamping with the unflagged clamp changes nothing. -/
theorem clamp_u32_idem (v lo hi : Nat) (h : lo ≤ hi) :
    clamp_u32 (clamp_u32 v lo hi) lo hi = clamp_u32 v lo hi := by
  unfold clamp_u32
  split_ifs <;> omega

/-! ## Field-preservation lemmas for the config-update steps -/

/-- The `respawn_time_s` step leaves `max_hearts` alone. -/
theorem upd_respawn_time_s_max_hearts (msg : WsMsg) (g : GameConfig) :
    (upd_respawn_time_s msg g).max_hearts = g.max_hearts := by
  unfold upd_respawn_time_s
  cases msg.respawn_time_s <;> rfl

/-- The `enable_hearts` step leaves `max_hearts` alone. -/
theorem upd_enable_hearts_max_hearts (msg : WsMsg) (g : GameConfig) :
    (upd_enable_hearts msg g).max_hearts = g.max_hearts := by
  unfold upd_enable_hearts
  cases msg.enable_hearts <;> rfl

/-- The `friendly_fire` step leaves `max_hearts` alone. -/
theorem upd_friendly_fire_max_hearts (msg : WsMsg) (g : GameConfig) :
    (upd_friendly_fire msg g).max_hearts = g.max_hearts := by
  unfold upd_friendly_fire
  cases msg.friendly_fire <;> rfl

/-- The `max_ammo` step leaves `max_hearts` alone. -/
theorem upd_max_ammo_max_hearts (msg : WsMsg) (g : GameConfig) :
    (upd_max_ammo msg g).max_hearts = g.max_hearts := by
  unfold upd_max_ammo
  cases msg.max_ammo <;> rfl

/-- The `reload_time_ms` step leaves `max_hearts` alone. -/
theorem upd_reload_time_ms_max_hearts (msg : WsMsg) (g : GameConfig) :
    (upd_reload_time_ms msg g).max_hearts = g.max_hearts := by
  unfold upd_reload_time_ms
  cases msg.reload_time_ms <;> rfl

/-- The `enable_ammo` step leaves `max_hearts` alone. -/
theorem upd_enable_ammo_max_hearts (msg : WsMsg) (g : GameConfig) :
    (upd_enable_ammo msg g).max_hearts = g.max_hearts := by
  unfold upd_enable_ammo
  cases msg.enable_ammo <;> rfl

/-- The `game_duration_s` step leaves `max_hearts` alone. -/
theorem upd_game_duration_s_max_hearts (msg : WsMsg) (g : GameConfig) :
    (upd_game_duration_s msg g).max_hearts = g.max_hearts := by
  unfold upd_game_duration_s
  cases msg.game_duration_s <;> rfl

/-! ## Claim C2 -/

/-- Claim C2 (code bug): the repository's own protocol document
(`src/unnamed/part_000` §6) requires that lowering `max_hearts` below
`current_hearts` clamps `current_hearts` to the new maximum, but
`handle_config_update` never touches the live state: with five current
hearts, applying `{max_hearts: 2}` stores the new maximum 2 while
`hearts_remaining` stays 5, above the new maximum.  The no-auto-heal
half of the claim holds vacuously, since the live state is never
touched at all (final conjunct, for every message). -/
theorem C2_hearts_clamp_missing :
    (handle_config_update ⟨dev0, game0, st0⟩
        { WsMsg.empty with max_hearts := some 2 }).1.game.max_hearts = 2
    ∧ (handle_config_update ⟨dev0, game0, st0⟩
        { WsMsg.empty with max_hearts := some 2 }).1.st.hearts_remaining = 5
    ∧ (2 : Nat) < 5
    ∧ (∀ s msg, (handle_config_update s msg).1.st = s.st) :=
  ⟨by decide, by decide, by decide, fun s msg => rfl⟩

/-! ## Claim C3 -/

/-- Counterexample for C3: the claim says every partial rules message has
its numeric fields coerced into the clamp table (`max_hearts` into
[1, 99]), but the WebSocket handler stores `max_hearts = 200`
unchanged. -/
theorem C3_counterexample :
    (handle_config_update ⟨dev0, game0, st0⟩
        { WsMsg.empty with max_hearts := some 200 }).1.game.max_hearts = 200
    ∧ ¬((200 : Nat) ≤ 99) := by
  exact ⟨by decide, by decide⟩

/-- Claim C3 (corrected): clamping to the table happens only in
`game_state_apply_game_config`, not in the WebSocket `config_update`
handler, which writes fields through with C truncation only and whose
reply carries no clamped flag.  In `game_state_apply_game_config` the
bounds are as the table states; the flag is raised exactly when one of
the `clamp8`/`clamp16` fields is out of bounds (coercion of
`respawn_cooldown_ms` happens via `clamp_u32` and does not raise it);
the u16 value 65535 (wire −1) passes un-clamped for `max_ammo`, while
for `max_hearts` the u8 wire −1 (255) is coerced to 99, so −1 is not an
accepted sentinel there. -/
theorem C3_clamp_table :
    ∀ (cfg : GameConfig) (msg : WsMsg) (s : ServerState) (v : Int),
      (1 ≤ (game_state_apply_game_config cfg).1.max_hearts
        ∧ (game_state_apply_game_config cfg).1.max_hearts ≤ 99)
      ∧ (game_state_apply_game_config cfg).1.respawn_cooldown_ms ≤ 30000
      ∧ (game_state_apply_game_config cfg).1.reload_time_ms ≤ 30000
      ∧ (50 ≤ (game_state_apply_game_config cfg).1.shot_rate_limit_ms
        ∧ (game_state_apply_game_config cfg).1.shot_rate_limit_ms ≤ 2000)
      ∧ (game_state_apply_game_config cfg).1.time_limit_s ≤ 7200
      ∧ (game_state_apply_game_config cfg).1.max_ammo ≤ 65535
      ∧ (cfg.max_ammo ≤ 65535 →
          (game_state_apply_game_config cfg).1.max_ammo = cfg.max_ammo)
      ∧ (cfg.max_hearts = 255 →
          (game_state_apply_game_config cfg).1.max_hearts = 99)
      ∧ ((game_state_apply_game_config cfg).2 = true ↔
          (cfg.max_hearts < 1 ∨ 99 < cfg.max_hearts
            ∨ 7200 < cfg.time_limit_s ∨ 65535 < cfg.score_to_win
            ∨ 30000 < cfg.invulnerability_ms ∨ 255 < cfg.mag_capacity
            ∨ 65535 < cfg.max_ammo ∨ 30000 < cfg.reload_time_ms
            ∨ cfg.shot_rate_limit_ms < 50 ∨ 2000 < cfg.shot_rate_limit_ms))
      ∧ (msg.max_hearts = some v → msg.spawn_hearts = none →
          (handle_config_update s msg).1.game.max_hearts = toU8 v) := by
  intro cfg msg s v
  refine ⟨⟨?_, ?_⟩, ?_, ?_, ⟨?_, ?_⟩, ?_, ?_, ?_, ?_, ?_, ?_⟩
  · simpa [game_state_apply_game_config] using
      clampFlagged_fst_lower cfg.max_hearts 1 99 (by norm_num)
  · simpa [game_state_apply_game_config] using
      clampFlagged_fst_upper cfg.max_hearts 1 99 (by norm_num)
  · simpa [game_state_apply_game_config] using
      clamp_u32_le cfg.respawn_cooldown_ms 0 30000 (by norm_num)
  · simpa [game_state_apply_game_config] using
      clampFlagged_fst_upper cfg.reload_time_ms 0 30000 (by norm_num)
  · simpa [game_state_apply_game_config] using
      clampFlagged_fst_lower cfg.shot_rate_limit_ms 50 2000 (by norm_num)
  · simpa [game_state_apply_game_config] using
      clampFlagged_fst_upper cfg.shot_rate_limit_ms 50 2000 (by norm_num)
  · simpa [game_state_apply_game_config] using
      clampFlagged_fst_upper cfg.time_limit_s 0 7200 (by norm_num)
  · simpa [game_state_apply_game_config] using
      clampFlagged_fst_upper cfg.max_ammo 0 65535 (by norm_num)
  · intro hle
    simp only [game_state_apply_game_config]
    rw [clampFlagged_of_le cfg.max_ammo 0 65535 (Nat.zero_le _) hle]
  · intro h255
    simp only [game_state_apply_game_config, h255]
    decide
  · simp only [game_state_apply_game_config, Bool.or_eq_true,
      clampFlagged_snd_iff]
    omega
  · intro hmh hsp
    simp only [handle_config_update, apply_game_fields]
    rw [upd_game_duration_s_max_hearts, upd_enable_ammo_max_hearts,
      upd_reload_time_ms_max_hearts, upd_max_ammo_max_hearts,
      upd_friendly_fire_max_hearts, upd_enable_hearts_max_hearts,
      upd_respawn_time_s_max_hearts]
    simp [upd_spawn_hearts, upd_max_hearts, hmh, hsp]

/-- Witness for C3: the clamp table and the un-clamped handler write at
concrete inputs. -/
theorem C3_clamp_table_witness :
    ((game_state_apply_game_config default_game_config_raw).1.max_hearts ≤ 99)
    ∧ (default_game_config_raw.max_ammo ≤ 65535 ∧
        (game_state_apply_game_config default_game_config_raw).1.max_ammo =
          default_game_config_raw.max_ammo)
    ∧ ({ default_game_config_raw with max_hearts := 255 }.max_hearts = 255 ∧
        (game_state_apply_game_config
          { default_game_config_raw with max_hearts := 255 }).1.max_hearts = 99)
    ∧ (({ WsMsg.empty with max_hearts := some (-1) } : WsMsg).max_hearts
          = some (-1)
        ∧ ({ WsMsg.empty with max_hearts := some (-1) } : WsMsg).spawn_hearts
          = none
        ∧ (handle_config_update ⟨dev0, game0, st0⟩
            { WsMsg.empty with max_hearts := some (-1) }).1.game.max_hearts
          = toU8 (-1)) :=
  ⟨(C3_clamp_table default_game_config_raw WsMsg.empty ⟨dev0, game0, st0⟩ 0).1.2,
    ⟨by decide,
      (C3_clamp_table default_game_config_raw WsMsg.empty
        ⟨dev0, game0, st0⟩ 0).2.2.2.2.2.2.1 (by decide)⟩,
    ⟨by decide,
      (C3_clamp_table { default_game_config_raw with max_hearts := 255 }
        WsMsg.empty ⟨dev0, game0, st0⟩ 0).2.2.2.2.2.2.2.1 (by decide)⟩,
    ⟨by decide, by decide,
      (C3_clamp_table default_game_config_raw
        { WsMsg.empty with max_hearts := some (-1) }
        ⟨dev0, game0, st0⟩ (-1)).2.2.2.2.2.2.2.2.2 (by decide) (by decide)⟩⟩

/-! ## Claim C4 -/

/-- Counterexample for C4: the claim says a respawning state always has
zero hearts, but `game_state_record_death` from three hearts leaves the
state respawning with two hearts. -/
theorem C4_counterexample :
    (game_state_record_death 100 game0
        { st0 with hearts_remaining := 3 }).respawning = true
    ∧ (game_state_record_death 100 game0
        { st0 with hearts_remaining := 3 }).hearts_remaining = 2
    ∧ (game_state_record_death 100 game0
        { st0 with hearts_remaining := 3 }).hearts_remaining ≠ 0 := by
  exact ⟨by decide, by decide, by decide⟩

/-- Claim C4 (corrected): `is_respawning` does not imply
`current_hearts = 0`.  `game_state_record_death` unconditionally sets
`respawning`, decrements `hearts_remaining` by exactly one (floored at
zero) and arms `respawn_end_time_ms := now + respawn_cooldown_ms`
(mod 2³²), so a death at two or more hearts leaves the state respawning
with positive hearts. -/
theorem C4_record_death :
    ∀ (now : Nat) (cfg : GameConfig) (st : GameStateData),
      (game_state_record_death now cfg st).respawning = true
      ∧ (game_state_record_death now cfg st).hearts_remaining =
          st.hearts_remaining - 1
      ∧ (game_state_record_death now cfg st).respawn_end_time_ms =
          (now + cfg.respawn_cooldown_ms) % U32
      ∧ (game_state_record_death now cfg st).deaths = (st.deaths + 1) % U32 := by
  intro now cfg st
  refine ⟨rfl, ?_, rfl, rfl⟩
  simp only [game_state_record_death]
  split_ifs with h <;> omega

/-! ## Claim C9 -/

/-- Embedding of the store semantics of `game_state_apply_game_config`:
the C function overwrites the global `s_game_cfg` wholesale and never
reads it, so applying a delta to a stored config ignores the store. -/
def game_state_apply_with_store (_store cfg : GameConfig) : GameConfig × Bool :=
  game_state_apply_game_config cfg

/-- Counterexample for C9: the claim says the second application of the
same delta reports `clamped = false`, but with the out-of-bounds delta
`max_hearts = 200` the second application re-clamps the same raw delta
and reports `clamped = true` again. -/
theorem C9_counterexample :
    (game_state_apply_with_store
        (game_state_apply_with_store game0
          { default_game_config_raw with max_hearts := 200 }).1
        { default_game_config_raw with max_hearts := 200 }).2 = true := by
  decide

/-- Claim C9 (corrected): applying the same rules delta twice yields the
same configuration as applying it once — `apply(apply(C,R),R) =
apply(C,R)` holds (the function overwrites the store and never reads
it) — but the second application reports the same clamped flag as the
first, not `false`; the flag is `false` on a second pass only when the
already-clamped output is what gets re-applied, i.e.
`game_state_apply_game_config` is idempotent with a false flag on its
own output. -/
theorem C9_clamp_idempotent :
    ∀ C R : GameConfig,
      (game_state_apply_with_store
          (game_state_apply_with_store C R).1 R).1 =
        (game_state_apply_with_store C R).1
      ∧ (game_state_apply_with_store
          (game_state_apply_with_store C R).1 R).2 =
        (game_state_apply_with_store C R).2
      ∧ game_state_apply_game_config (game_state_apply_game_config R).1 =
          ((game_state_apply_game_config R).1, false) := by
  intro C R
  refine ⟨rfl, rfl, ?_⟩
  have hmh := clampFlagged_idem R.max_hearts 1 99 (by norm_num)
  have htl := clampFlagged_idem R.time_limit_s 0 7200 (by norm_num)
  have hsw := clampFlagged_idem R.score_to_win 0 65535 (by norm_num)
  have hrc := clamp_u32_idem R.respawn_cooldown_ms 0 30000 (by norm_num)
  have hiv := clampFlagged_idem R.invulnerability_ms 0 30000 (by norm_num)
  have hmg := clampFlagged_idem R.mag_capacity 0 255 (by norm_num)
  have hma := clampFlagged_idem R.max_ammo 0 65535 (by norm_num)
  have hrt := clampFlagged_idem R.reload_time_ms 0 30000 (by norm_num)
  have hsr := clampFlagged_idem R.shot_rate_limit_ms 50 2000 (by norm_num)
  simp only [game_state_apply_game_config]
  simp only [hmh, htl, hsw, hrc, hiv, hmg, hma, hrt, hsr]
  simp

/-! ## Claim C1 -/

/-- Opcode 20 (`ack`) is produced by no frame builder in the source. -/
theorem OutFrame.opcode_ne_ack (f : OutFrame) : f.opcode ≠ OP_ACK := by
  cases f <;> simp [OutFrame.opcode, OP_STATUS, OP_HEARTBEAT_ACK,
    OP_HIT_REPORT, OP_SHOT_FIRED, OP_RESPAWN, OP_ACK]

/-- Claim C1 (code bug): the repository's own protocol document
(`src/unnamed/part_000` §4.4 and §1) requires exactly one
`ack{op:20, reply_to:req_id, success}` for every command frame that
carries a `req_id`, but `process_message` never constructs any `ack`:
a `config_update` carrying `req_id = "cfg-101"` is answered only by a
broadcast `status` (op 10), and — last conjunct — no input whatsoever
makes the dispatcher emit a frame with op 20. -/
theorem C1_no_ack :
    ((process_message 1 ⟨dev0, game0, st0⟩
        { WsMsg.empty with
          op := some 3
          req_id := some "cfg-101"
          max_hearts := some 7 }).2.map
        (fun e => OutFrame.opcode (Emit.frame e)) = [OP_STATUS])
    ∧ (∀ (fd : Nat) (s : ServerState) (msg : WsMsg),
        (process_message fd s msg).2.countP
          (fun e => decide (OutFrame.opcode (Emit.frame e) = OP_ACK)) = 0) := by
  refine ⟨by decide, ?_⟩
  intro fd s msg
  apply List.countP_eq_zero.mpr
  intro e _
  simp [OutFrame.opcode_ne_ack]

/-! ## Claim C5 -/

set_option maxRecDepth 4000

/-- Claim C5 (code bug): the repository's protocol document
(`src/unnamed/part_000` §1.4 and §4.3) describes `seq_id` as a rolling
8-bit counter, but `ws_server_broadcast_shot` emits the raw 32-bit
`shots_fired` value.  A run of 260 consecutive shots from a fresh state
emits the `seq_id` values 1, 2, …, 260 — the first frame carries 1 (not
0) and the 256th carries 256, which no 8-bit rolling sequence can hold —
while `shots_fired` itself correctly increases by 260. -/
theorem C5_seq_id_not_rolling :
    ((run_shots 260 st0).2 = (List.range 260).map (fun i => i + 1))
    ∧ (run_shots 260 st0).1.shots_fired = 260
    ∧ (run_shots 260 st0).2.head? = some 1
    ∧ (run_shots 260 st0).2.get? 255 = some 256
    ∧ ¬(256 < 256) := by
  exact ⟨by decide, by decide, by decide, by decide, by decide⟩

/-! ## Peer event bus (ESP-NOW)

Embedding of the `espnow_comm` translation unit (`src/unnamed/part_010`).
The FreeRTOS queue created with `xQueueCreate(16, …)` is a bounded FIFO:
`xQueueSendFromISR` fails (returning `errQUEUE_FULL`) when the queue is
full — the element being sent is simply not enqueued — and
`xQueueReceive` takes from the front.  The queue is a `List` with the
front at the head.  The static module variables become a state record;
the effects of the ESP-IDF driver calls (`esp_now_init`,
`esp_now_deinit`, `esp_now_send`, callback registration) are modelled
through the `espnow_inited` / callback flags: `esp_now_send` returns
`ESP_ERR_ESPNOW_NOT_INIT` once the driver has been deinitialised.
-/

/-- Embedding of the packed `PlayerMessage` struct
(`src/include/espnow_comm.h`); `sizeof(PlayerMessage)` is 16 bytes. -/
structure PlayerMessage where
  msg_type : Nat
  version : Nat
  player_id : Nat
  device_id : Nat
  team_id : Nat
  reserved : Nat
  color_rgb : Nat
  timestamp_ms : Nat
  data : Nat
deriving Repr, DecidableEq

/-- Embedding of `EspnowMessageEnvelope`. -/
structure EspnowMessageEnvelope where
  msg : PlayerMessage
  src_mac : List Nat
deriving Repr, DecidableEq

/-- Embedding of `EspnowCommConfig`. -/
structure EspnowCommConfig where
  channel : Nat
  prefer_wifi : Bool
  set_pmk : Bool
deriving Repr, DecidableEq

/-- Embedding of `recv_cb` acting on the RX queue (capacity 16, from
`xQueueCreate(16, sizeof(EspnowMessageEnvelope))`): datagrams whose
length differs from `sizeof(PlayerMessage)` = 16 bytes are dropped;
otherwise `xQueueSendFromISR` appends — and silently fails when the
queue already holds 16 entries. -/
def recv_cb (len : Nat) (env : EspnowMessageEnvelope)
    (q : List EspnowMessageEnvelope) : List EspnowMessageEnvelope :=
  if len ≠ 16 then q
  else if q.length < 16 then q ++ [env]
  else q

/-- Embedding of `espnow_comm_receive` draining the queue with
`xQueueReceive`: the front element, if any, is removed and returned
(`none` models the timeout expiring on an empty queue). -/
def espnow_comm_receive (q : List EspnowMessageEnvelope) :
    Option EspnowMessageEnvelope × List EspnowMessageEnvelope :=
  match q with
  | [] => (none, [])
  | e :: rest => (some e, rest)

/-- The static module state of `espnow_comm` plus the modelled state of
the underlying ESP-NOW driver. -/
structure EspnowModuleState where
  initialised : Bool
  espnow_inited : Bool
  rx_queue : Option (List EspnowMessageEnvelope)
  send_mutex : Bool
  recv_cb_registered : Bool
  send_cb_registered : Bool
  peer_count : Nat
  channel : Nat
  pmk_set : Bool
  coex_prefer_wifi : Bool
deriving Repr, DecidableEq

/-- Embedding of `espnow_comm_set_channel` (success path of
`esp_wifi_set_channel`): channel 0 is a no-op, otherwise the module
channel is locked. -/
def espnow_comm_set_channel (s : EspnowModuleState) (ch : Nat) :
    EspnowModuleState :=
  if ch = 0 then s else { s with channel := ch }

/-- The `if (config)` tail of `espnow_comm_init`: optional PMK, channel
lock and coexistence preference. -/
def espnow_apply_config (s : EspnowModuleState)
    (config : Option EspnowCommConfig) : EspnowModuleState :=
  match config with
  | none => s
  | some c =>
    let sa := if c.set_pmk then { s with pmk_set := true } else s
    let sb := if 0 < c.channel then espnow_comm_set_channel sa c.channel
      else sa
    if c.prefer_wifi then { sb with coex_prefer_wifi := true } else sb

/-- Embedding of `espnow_comm_init`; the returned `Bool` records whether
the idempotence early-return (`if (s_initialised) return ESP_OK;`) was
taken.  On the full path: the driver is (re)initialised, the RX queue is
created only if the handle is still `NULL`, the callbacks are
registered, the peer counter is cleared and the optional config is
applied. -/
def espnow_comm_init (s : EspnowModuleState)
    (config : Option EspnowCommConfig) : EspnowModuleState × Bool :=
  if s.initialised then (s, true)
  else
    let s4 := { s with
      espnow_inited := true
      rx_queue := match s.rx_queue with
        | none => some []
        | some q => some q
      send_mutex := true
      recv_cb_registered := true
      send_cb_registered := true
      peer_count := 0 }
    ({ espnow_apply_config s4 config with initialised := true }, false)

/-- Embedding of `espnow_comm_clear_peers`: `esp_now_deinit()` tears the
whole driver down (callbacks and peer list included), and the module is
marked uninitialised with a zero peer counter.  The queue handle and the
send mutex are left as they are. -/
def espnow_comm_clear_peers (s : EspnowModuleState) : EspnowModuleState :=
  { s with
      espnow_inited := false
      recv_cb_registered := false
      send_cb_registered := false
      initialised := false
      peer_count := 0 }

/-- Embedding of `espnow_comm_peer_count`. -/
def espnow_comm_peer_count (s : EspnowModuleState) : Nat := s.peer_count

/-- Embedding of `espnow_comm_send`: fails when the send mutex was never
created; otherwise the result of `esp_now_send`, which fails with
`ESP_ERR_ESPNOW_NOT_INIT` when the driver is deinitialised (the
otherwise-successful radio path is modelled as succeeding). -/
def espnow_comm_send (s : EspnowModuleState) (_mac : List Nat)
    (_msg : PlayerMessage) : Bool :=
  if !s.send_mutex then false
  else s.espnow_inited

/-- Embedding of `espnow_comm_broadcast` (send to the all-ones MAC). -/
def espnow_comm_broadcast (s : EspnowModuleState) (msg : PlayerMessage) :
    Bool :=
  espnow_comm_send s [0xFF, 0xFF, 0xFF, 0xFF, 0xFF, 0xFF] msg

/-! ## Claim C7 -/

/-- A fixture envelope, distinguished by its timestamp. -/
def env (i : Nat) : EspnowMessageEnvelope :=
  { msg := { msg_type := 0, version := 1, player_id := 1, device_id := 1,
             team_id := 0, reserved := 0, color_rgb := 0,
             timestamp_ms := i, data := 0 },
    src_mac := [1, 2, 3, 4, 5, 6] }

/-- A full RX queue of 16 distinct envelopes. -/
def fullQueue : List EspnowMessageEnvelope := (List.range 16).map env

/-- Counterexample for C7: the claim says an arrival at a full queue
drops the *oldest* entry to admit the new one, but `xQueueSendFromISR`
on a full queue fails: the queue is unchanged, the oldest entry is still
at the front, and the new datagram is the one lost. -/
theorem C7_counterexample :
    recv_cb 16 (env 99) fullQueue = fullQueue
    ∧ (recv_cb 16 (env 99) fullQueue).head? = some (env 0)
    ∧ ¬(env 99 ∈ recv_cb 16 (env 99) fullQueue) := by
  exact ⟨by decide, by decide, by decide⟩

/-- Claim C7 (corrected): the RX queue is bounded at 16 and the ISR-side
enqueue never blocks, but on overflow it is the *newly arrived* datagram
that is dropped (the queue is left unchanged), not the oldest; receive
dequeues in FIFO order. -/
theorem C7_rx_queue :
    ∀ (q : List EspnowMessageEnvelope) (e : EspnowMessageEnvelope),
      (q.length ≤ 16 → (recv_cb 16 e q).length ≤ 16)
      ∧ (q.length < 16 → recv_cb 16 e q = q ++ [e])
      ∧ (q.length = 16 → recv_cb 16 e q = q)
      ∧ (∀ rest : List EspnowMessageEnvelope,
          espnow_comm_receive (e :: rest) = (some e, rest))
      ∧ espnow_comm_receive [] = (none, []) := by
  intro q e
  refine ⟨?_, ?_, ?_, fun rest => rfl, rfl⟩
  · intro hle
    unfold recv_cb
    split_ifs with h1 h2
    · exact hle
    · simp only [List.length_append, List.length_cons, List.length_nil]
      omega
    · exact hle
  · intro hlt
    unfold recv_cb
    split_ifs <;> first | rfl | omega
  · intro heq
    unfold recv_cb
    split_ifs <;> first | rfl | omega

/-- Witness for C7: the queue discipline at concrete inputs. -/
theorem C7_rx_queue_witness :
    (([env 0].length ≤ 16 ∧ (recv_cb 16 (env 1) [env 0]).length ≤ 16)
      ∧ ([env 0].length < 16 ∧ recv_cb 16 (env 1) [env 0] = [env 0, env 1])
      ∧ (fullQueue.length = 16 ∧ recv_cb 16 (env 1) fullQueue = fullQueue)) :=
  ⟨⟨by decide, (C7_rx_queue [env 0] (env 1)).1 (by decide)⟩,
    ⟨by decide, by
      have h := (C7_rx_queue [env 0] (env 1)).2.1 (by decide)
      simpa using h⟩,
    ⟨by decide, (C7_rx_queue fullQueue (env 1)).2.2.1 (by decide)⟩⟩

/-! ## Claim C10 -/

/-- Applying the optional config leaves the driver-initialised flag
alone. -/
theorem espnow_apply_config_espnow_inited (s : EspnowModuleState)
    (config : Option EspnowCommConfig) :
    (espnow_apply_config s config).espnow_inited = s.espnow_inited := by
  cases config with
  | none => rfl
  | some c =>
    simp only [espnow_apply_config, espnow_comm_set_channel]
    split_ifs <;> rfl

/-- Applying the optional config leaves the receive callback alone. -/
theorem espnow_apply_config_recv_cb (s : EspnowModuleState)
    (config : Option EspnowCommConfig) :
    (espnow_apply_config s config).recv_cb_registered =
      s.recv_cb_registered := by
  cases config with
  | none => rfl
  | some c =>
    simp only [espnow_apply_config, espnow_comm_set_channel]
    split_ifs <;> rfl

/-- Applying the optional config leaves the send callback alone. -/
theorem espnow_apply_config_send_cb (s : EspnowModuleState)
    (config : Option EspnowCommConfig) :
    (espnow_apply_config s config).send_cb_registered =
      s.send_cb_registered := by
  cases config with
  | none => rfl
  | some c =>
    simp only [espnow_apply_config, espnow_comm_set_channel]
    split_ifs <;> rfl

/-- Applying the optional config leaves the peer counter alone. -/
theorem espnow_apply_config_peer_count (s : EspnowModuleState)
    (config : Option EspnowCommConfig) :
    (espnow_apply_config s config).peer_count = s.peer_count := by
  cases config with
  | none => rfl
  | some c =>
    simp only [espnow_apply_config, espnow_comm_set_channel]
    split_ifs <;> rfl

/-- Applying the optional config leaves the RX queue handle alone. -/
theorem espnow_apply_config_rx_queue (s : EspnowModuleState)
    (config : Option EspnowCommConfig) :
    (espnow_apply_config s config).rx_queue = s.rx_queue := by
  cases config with
  | none => rfl
  | some c =>
    simp only [espnow_apply_config, espnow_comm_set_channel]
    split_ifs <;> rfl

/-- Channel after applying a present config: locked to the configured
channel when positive, kept otherwise. -/
theorem espnow_apply_config_channel (s : EspnowModuleState)
    (c : EspnowCommConfig) :
    (espnow_apply_config s (some c)).channel =
      if 0 < c.channel then c.channel else s.channel := by
  simp only [espnow_apply_config, espnow_comm_set_channel]
  split_ifs <;> first | rfl | omega

/-- Claim C10: `espnow_comm_clear_peers` is a full teardown — afterwards
the peer count reads zero, the module is marked uninitialised, unicast
and broadcast sends fail (the driver is deinitialised), and the next
`espnow_comm_init` does not take the idempotence early-return: it runs
the complete initialisation, re-registering the callbacks, re-creating
the queue if its handle is `NULL`, marking the driver initialised and
applying the configured channel. -/
theorem C10_clear_peers_teardown :
    ∀ (s : EspnowModuleState) (cfg : Option EspnowCommConfig)
      (c : EspnowCommConfig) (mac : List Nat) (msg : PlayerMessage),
      espnow_comm_peer_count (espnow_comm_clear_peers s) = 0
      ∧ (espnow_comm_clear_peers s).initialised = false
      ∧ espnow_comm_send (espnow_comm_clear_peers s) mac msg = false
      ∧ espnow_comm_broadcast (espnow_comm_clear_peers s) msg = false
      ∧ (espnow_comm_init (espnow_comm_clear_peers s) cfg).2 = false
      ∧ (espnow_comm_init (espnow_comm_clear_peers s) cfg).1.initialised = true
      ∧ (espnow_comm_init (espnow_comm_clear_peers s) cfg).1.espnow_inited
        = true
      ∧ (espnow_comm_init (espnow_comm_clear_peers s) cfg).1.recv_cb_registered
        = true
      ∧ (espnow_comm_init (espnow_comm_clear_peers s) cfg).1.send_cb_registered
        = true
      ∧ (espnow_comm_init (espnow_comm_clear_peers s) cfg).1.peer_count = 0
      ∧ ((espnow_comm_init (espnow_comm_clear_peers s) cfg).1.rx_queue
          = match s.rx_queue with
            | none => some []
            | some qq => some qq)
      ∧ ((espnow_comm_init (espnow_comm_clear_peers s) (some c)).1.channel
          = if 0 < c.channel then c.channel else s.channel) := by
  intro s cfg c mac msg
  refine ⟨rfl, rfl, ?_, ?_, ?_, rfl, ?_, ?_, ?_, ?_, ?_, ?_⟩
  · simp [espnow_comm_send, espnow_comm_clear_peers]
  · simp [espnow_comm_broadcast, espnow_comm_send, espnow_comm_clear_peers]
  · simp [espnow_comm_init, espnow_comm_clear_peers]
  · simp only [espnow_comm_init, espnow_comm_clear_peers]
    simp [espnow_apply_config_espnow_inited]
  · simp only [espnow_comm_init, espnow_comm_clear_peers]
    simp [espnow_apply_config_recv_cb]
  · simp only [espnow_comm_init, espnow_comm_clear_peers]
    simp [espnow_apply_config_send_cb]
  · simp only [espnow_comm_init, espnow_comm_clear_peers]
    simp [espnow_apply_config_peer_count]
  · simp only [espnow_comm_init, espnow_comm_clear_peers]
    simp [espnow_apply_config_rx_queue]
  · simp only [espnow_comm_init, espnow_comm_clear_peers]
    simp [espnow_apply_config_channel]

/-! ## WebSocket client table

Embedding of the client management of the optimized WebSocket server
(`src/unnamed/part_001`, lines 27–117): a fixed array of
`MAX_WS_CLIENTS = 8` slots becomes a list of fixed length 8.
`add_client` first deactivates any existing active slot holding the same
session handle (`fd`), breaking at the first match, then occupies the
first inactive slot; with no free slot the table is unchanged (the
handshake is refused with a warning).
-/

/-- Capacity of the client table (`#define MAX_WS_CLIENTS 8`). -/
def MAX_WS_CLIENTS : Nat := 8

/-- Embedding of the `ws_client_t` slot. -/
structure WsClient where
  fd : Int
  active : Bool
  last_activity_ms : Nat
  supports_binary : Bool
deriving Repr, DecidableEq

/-- The "remove any existing slot with this fd" loop of `add_client`:
deactivate the first active slot holding `f` and break. -/
def remove_existing_fd : List WsClient → Int → List WsClient
  | [], _ => []
  | c :: rest, f =>
    if c.active && c.fd == f then { c with active := false } :: rest
    else c :: remove_existing_fd rest f

/-- The `find_client_slot` + occupy step of `add_client`: fill the first
inactive slot, or leave the table unchanged when none is free. -/
def occupy_first_free : List WsClient → WsClient → List WsClient
  | [], _ => []
  | c :: rest, nc =>
    if !c.active then nc :: rest
    else c :: occupy_first_free rest nc

/-- Embedding of `add_client` (`src/unnamed/part_001`, lines 74–117). -/
def add_client (tbl : List WsClient) (f : Int) (now : Nat) (bin : Bool) :
    List WsClient :=
  occupy_first_free (remove_existing_fd tbl f)
    { fd := f, active := true, last_activity_ms := now, supports_binary := bin }

/-- The number of active rows (the count the source logs). -/
def activeCount (tbl : List WsClient) : Nat :=
  (tbl.filter fun c => c.active).length

/-- Whether the table holds an active row for the handle `f`
(the test of `find_client_by_fd`). -/
def has_active_fd (tbl : List WsClient) (f : Int) : Bool :=
  tbl.any fun c => c.active && c.fd == f

/-- Decidable statement of the table invariant: no two active rows share
a session handle. -/
def no_dup_active_fd : List WsClient → Bool
  | [] => true
  | c :: rest =>
    (!c.active || rest.all fun d => !d.active || d.fd != c.fd)
      && no_dup_active_fd rest

/-- Active rows never outnumber the slots. -/
theorem activeCount_le_length (tbl : List WsClient) :
    activeCount tbl ≤ tbl.length :=
  List.length_filter_le _ tbl

/-- Unfolding of `activeCount` over a cons. -/
theorem activeCount_cons (c : WsClient) (rest : List WsClient) :
    activeCount (c :: rest) =
      (if c.active then 1 else 0) + activeCount rest := by
  simp only [activeCount, List.filter_cons]
  split_ifs <;> simp [Nat.add_comm]

/-- Deactivating a handle keeps the number of slots. -/
theorem remove_existing_fd_length (tbl : List WsClient) (f : Int) :
    (remove_existing_fd tbl f).length = tbl.length := by
  induction tbl with
  | nil => rfl
  | cons c rest ih =>
    unfold remove_existing_fd
    split_ifs <;> simp [ih]

/-- Occupying a slot keeps the number of slots. -/
theorem occupy_first_free_length (tbl : List WsClient) (nc : WsClient) :
    (occupy_first_free tbl nc).length = tbl.length := by
  induction tbl with
  | nil => rfl
  | cons c rest ih =>
    unfold occupy_first_free
    split_ifs <;> simp [ih]

/-- When the handle is present and active, deactivating it lowers the
active count by exactly one. -/
theorem remove_existing_fd_count (tbl : List WsClient) (f : Int)
    (h : has_active_fd tbl f = true) :
    activeCount (remove_existing_fd tbl f) + 1 = activeCount tbl := by
  induction tbl with
  | nil => simp [has_active_fd] at h
  | cons c rest ih =>
    unfold remove_existing_fd
    by_cases hc : (c.active && c.fd == f) = true
    · rw [if_pos hc]
      rw [activeCount_cons, activeCount_cons]
      have hact : c.active = true := ((Bool.and_eq_true _ _) ▸ hc).1
      simp [hact]
      omega
    · rw [if_neg hc]
      rw [activeCount_cons, activeCount_cons]
      have hrest : has_active_fd rest f = true := by
        simp only [has_active_fd, List.any_cons, Bool.or_eq_true] at h
        rcases h with h | h
        · exact absurd h hc
        · exact h
      have := ih hrest
      omega

/-- Occupying with an active client raises the active count by one, as
long as a free slot exists. -/
theorem occupy_first_free_count (tbl : List WsClient) (nc : WsClient)
    (hnc : nc.active = true) (hfree : activeCount tbl < tbl.length) :
    activeCount (occupy_first_free tbl nc) = activeCount tbl + 1 := by
  induction tbl with
  | nil => simp [activeCount] at hfree
  | cons c rest ih =>
    unfold occupy_first_free
    by_cases hc : (!c.active) = true
    · rw [if_pos hc]
      rw [activeCount_cons, activeCount_cons]
      simp only [Bool.not_eq_true'] at hc
      simp [hc, hnc]
      omega
    · rw [if_neg hc]
      rw [activeCount_cons, activeCount_cons]
      simp only [Bool.not_eq_true', Bool.not_eq_false] at hc
      have hfree2 : activeCount rest < rest.length := by
        rw [activeCount_cons] at hfree
        simp only [hc, if_true, List.length_cons] at hfree
        omega
      rw [ih hfree2]
      simp [hc]
      omega

/-- A pointwise guard survives the removal pass: deactivation only turns
guarded rows into trivially guarded inactive rows. -/
theorem all_guard_remove (l : List WsClient) (f : Int)
    (Q : WsClient → Bool)
    (h : (l.all fun d => !d.active || Q d) = true) :
    ((remove_existing_fd l f).all fun d => !d.active || Q d) = true := by
  induction l with
  | nil => rfl
  | cons c rest ih =>
    unfold remove_existing_fd
    simp only [List.all_cons, Bool.and_eq_true] at h
    by_cases hc : (c.active && c.fd == f) = true
    · rw [if_pos hc]
      simp only [List.all_cons, Bool.and_eq_true]
      exact ⟨by simp, h.2⟩
    · rw [if_neg hc]
      simp only [List.all_cons, Bool.and_eq_true]
      exact ⟨h.1, ih h.2⟩

/-- The removal pass preserves the uniqueness invariant. -/
theorem remove_existing_fd_no_dup (tbl : List WsClient) (f : Int)
    (h : no_dup_active_fd tbl = true) :
    no_dup_active_fd (remove_existing_fd tbl f) = true := by
  induction tbl with
  | nil => rfl
  | cons c rest ih =>
    unfold remove_existing_fd
    simp only [no_dup_active_fd, Bool.and_eq_true] at h
    by_cases hc : (c.active && c.fd == f) = true
    · rw [if_pos hc]
      simp only [no_dup_active_fd, Bool.and_eq_true]
      exact ⟨by simp, h.2⟩
    · rw [if_neg hc]
      simp only [no_dup_active_fd, Bool.and_eq_true]
      refine ⟨?_, ih h.2⟩
      rcases Bool.or_eq_true _ _ |>.mp h.1 with h1 | h1
      · simp [h1]
      · have := all_guard_remove rest f (fun d => d.fd != c.fd) h1
        simp [this]

/-- The guard form of "no active row holds `f`". -/
theorem guard_iff_not_has_active (l : List WsClient) (f : Int) :
    (l.all fun d => !d.active || d.fd != f) = true ↔
      has_active_fd l f = false := by
  have point : ∀ x : WsClient,
      ((!x.active || x.fd != f) = true) ↔
        ¬((x.active && x.fd == f) = true) := by
    intro x
    cases hxa : x.active <;> simp [hxa]
  rw [List.all_eq_true, has_active_fd, List.any_eq_false]
  constructor
  · intro h x hx
    exact (point x).mp (h x hx)
  · intro h x hx
    exact (point x).mpr (h x hx)

/-- After the removal pass no active row holds the handle (given the
invariant). -/
theorem remove_existing_fd_not_active (tbl : List WsClient) (f : Int)
    (h : no_dup_active_fd tbl = true) :
    has_active_fd (remove_existing_fd tbl f) f = false := by
  induction tbl with
  | nil => simp [remove_existing_fd, has_active_fd]
  | cons c rest ih =>
    unfold remove_existing_fd
    simp only [no_dup_active_fd, Bool.and_eq_true] at h
    by_cases hc : (c.active && c.fd == f) = true
    · rw [if_pos hc]
      simp only [has_active_fd, List.any_cons, Bool.or_eq_false_iff]
      constructor
      · simp
      · have hact : c.active = true := ((Bool.and_eq_true _ _) ▸ hc).1
        have hfd : c.fd = f := beq_iff_eq.mp ((Bool.and_eq_true _ _) ▸ hc).2
        rcases Bool.or_eq_true _ _ |>.mp h.1 with h1 | h1
        · simp [hact] at h1
        · have hall : (rest.all fun d => !d.active || d.fd != f) = true := by
            rw [← hfd]
            exact h1
          exact (guard_iff_not_has_active rest f).mp hall
    · rw [if_neg hc]
      simp only [has_active_fd, List.any_cons, Bool.or_eq_false_iff]
      exact ⟨by simpa using hc, ih h.2⟩

/-- A pointwise guard survives occupancy when the newcomer satisfies
it. -/
theorem all_guard_occupy (l : List WsClient) (nc : WsClient)
    (g : WsClient → Bool) (h : l.all g = true) (hnc : g nc = true) :
    (occupy_first_free l nc).all g = true := by
  induction l with
  | nil => rfl
  | cons c rest ih =>
    unfold occupy_first_free
    simp only [List.all_cons, Bool.and_eq_true] at h
    split_ifs
    · simp only [List.all_cons, Bool.and_eq_true]
      exact ⟨hnc, h.2⟩
    · simp only [List.all_cons, Bool.and_eq_true]
      exact ⟨h.1, ih h.2⟩

/-- Occupancy preserves the uniqueness invariant when no active row
already holds the newcomer's handle. -/
theorem occupy_first_free_no_dup (tbl : List WsClient) (nc : WsClient)
    (h : no_dup_active_fd tbl = true)
    (hfresh : has_active_fd tbl nc.fd = false) :
    no_dup_active_fd (occupy_first_free tbl nc) = true := by
  induction tbl with
  | nil => rfl
  | cons c rest ih =>
    unfold occupy_first_free
    simp only [no_dup_active_fd, Bool.and_eq_true] at h
    simp only [has_active_fd, List.any_cons, Bool.or_eq_false_iff] at hfresh
    split_ifs with hc
    · simp only [no_dup_active_fd, Bool.and_eq_true]
      constructor
      · have hall : (rest.all fun d => !d.active || d.fd != nc.fd) = true :=
          (guard_iff_not_has_active rest nc.fd).mpr hfresh.2
        simp [hall]
      · exact h.2
    · simp only [no_dup_active_fd, Bool.and_eq_true]
      have hca : c.active = true := by
        simpa using hc
      refine ⟨?_, ih h.2 hfresh.2⟩
      rcases Bool.or_eq_true _ _ |>.mp h.1 with h1 | h1
      · simp [hca] at h1
      · have hncc : (fun d => !d.active || d.fd != c.fd) nc = true := by
          have hne : ¬(c.fd = nc.fd) := by
            intro hEq
            have := hfresh.1
            simp [hca, hEq] at this
          simp only [Bool.or_eq_true, Bool.not_eq_true', bne_iff_ne]
          exact Or.inr fun hEq => hne hEq.symm
        have := all_guard_occupy rest nc (fun d => !d.active || d.fd != c.fd)
          h1 hncc
        simp [this]

/-- Claim C8: the WebSocket client table never holds more than 8 active
rows and never two active rows with the same session handle; a
re-handshake with a handle already present replaces the old row, leaving
the active-client count unchanged.  (`add_client` of the optimized
server, table of `MAX_WS_CLIENTS = 8` slots.) -/
theorem C8_client_table :
    ∀ (tbl : List WsClient) (f : Int) (now : Nat) (bin : Bool),
      tbl.length = MAX_WS_CLIENTS → no_dup_active_fd tbl = true →
        (add_client tbl f now bin).length = MAX_WS_CLIENTS
        ∧ activeCount (add_client tbl f now bin) ≤ MAX_WS_CLIENTS
        ∧ no_dup_active_fd (add_client tbl f now bin) = true
        ∧ (has_active_fd tbl f = true →
            activeCount (add_client tbl f now bin) = activeCount tbl) := by
  intro tbl f now bin hlen hdup
  have hlen2 : (add_client tbl f now bin).length = MAX_WS_CLIENTS := by
    unfold add_client
    rw [occupy_first_free_length, remove_existing_fd_length, hlen]
  refine ⟨hlen2, ?_, ?_, ?_⟩
  · calc activeCount (add_client tbl f now bin)
        ≤ (add_client tbl f now bin).length := activeCount_le_length _
      _ = MAX_WS_CLIENTS := hlen2
  · unfold add_client
    exact occupy_first_free_no_dup _ _
      (remove_existing_fd_no_dup tbl f hdup)
      (remove_existing_fd_not_active tbl f hdup)
  · intro hpresent
    unfold add_client
    have h1 := remove_existing_fd_count tbl f hpresent
    have h2 : activeCount (remove_existing_fd tbl f) <
        (remove_existing_fd tbl f).length := by
      rw [remove_existing_fd_length, hlen]
      have h3 : activeCount tbl ≤ MAX_WS_CLIENTS := by
        calc activeCount tbl ≤ tbl.length := activeCount_le_length tbl
          _ = MAX_WS_CLIENTS := hlen
      omega
    rw [occupy_first_free_count _ _ rfl h2]
    omega

/-- A concrete full table: eight active rows with distinct handles. -/
def tblW : List WsClient :=
  (List.range 8).map fun i =>
    { fd := (i : Int), active := true, last_activity_ms := 0,
      supports_binary := true }

/-- Witness for C8: re-handshake of handle 5 on a full table of eight
distinct active rows keeps the count at eight. -/
theorem C8_client_table_witness :
    (tblW.length = MAX_WS_CLIENTS ∧ no_dup_active_fd tblW = true)
    ∧ (add_client tblW 5 77 true).length = MAX_WS_CLIENTS
    ∧ activeCount (add_client tblW 5 77 true) ≤ MAX_WS_CLIENTS
    ∧ no_dup_active_fd (add_client tblW 5 77 true) = true
    ∧ (has_active_fd tblW 5 = true ∧
        activeCount (add_client tblW 5 77 true) = activeCount tblW) :=
  ⟨⟨by decide, by decide⟩,
    (C8_client_table tblW 5 77 true (by decide) (by decide)).1,
    (C8_client_table tblW 5 77 true (by decide) (by decide)).2.1,
    (C8_client_table tblW 5 77 true (by decide) (by decide)).2.2.1,
    ⟨by decide,
      (C8_client_table tblW 5 77 true (by decide) (by decide)).2.2.2
        (by decide)⟩⟩

end RayZ
